import Mathlib

/-!
# DSI panel control core (techpack/display/msm/dsi/dsi_panel.h)

A shallow embedding of the data model declared in `dsi_panel.h` together with
the properties of the panel specification that it decides.

Conventions of the embedding:

* C unsigned integers (`u8`, `u16`, `u32`, `unsigned long`) are natural
  numbers; where the width matters it is written out (`BITS_PER_LONG`).
* A C array `T a[N]` is a list of exactly `N` elements (`CArray T N`), read
  with the checked accessor `CArray.read`.
* C enumerators are natural numbers numbered the way C numbers them: the
  first is `0` unless given, each next one is the previous plus one.
* Functions whose bodies live in the `.c` files of the driver are only
  declared in the header; where a property needs one, it is modelled from the
  specification and its doc comment says so.
-/

namespace DsiPanel

/-! ## Constants of the header -/

/-- Header line 28: `#define BL_RANGE_MAX 10`. -/
def BL_RANGE_MAX : Nat := 10

/-- Header line 31: `#define HBM_RANGE_MAX 4`. -/
def HBM_RANGE_MAX : Nat := 4

/-- Width of `unsigned long` on the 64-bit target the driver is built for. -/
def BITS_PER_LONG : Nat := 64

/-! ## C arrays -/

/-- A C array of exactly `n` elements of type `α`. -/
abbrev CArray (α : Type) (n : Nat) : Type := { l : List α // l.length = n }

/-- Checked read of slot `i` of a C array: `none` when `i` is out of bounds. -/
def CArray.read {α : Type} {n : Nat} (a : CArray α n) (i : Nat) : Option α :=
  a.val[i]?

/-- Number of slots of a C array. -/
def CArray.slots {α : Type} {n : Nat} (a : CArray α n) : Nat :=
  a.val.length

/-! ## Enumerations -/

/-- Enumerator `HBM_MODE_OFF = 0` of `enum hbm_mode_type`. -/
def HBM_MODE_OFF : Nat := 0
/-- Enumerator `HBM_MODE_ON` of `enum hbm_mode_type`. -/
def HBM_MODE_ON : Nat := HBM_MODE_OFF + 1
/-- Enumerator `HBM_MODE_SV` of `enum hbm_mode_type`. -/
def HBM_MODE_SV : Nat := HBM_MODE_ON + 1
/-- Enumerator `HBM_MODE_MAX` of `enum hbm_mode_type`, the count of modes. -/
def HBM_MODE_MAX : Nat := HBM_MODE_SV + 1

/-- The modes of `enum hbm_mode_type`: every enumerator before `HBM_MODE_MAX`. -/
def hbm_mode_type : List Nat := [HBM_MODE_OFF, HBM_MODE_ON, HBM_MODE_SV]

/-- Enumerator `ESD_MODE_REG_READ` of `enum esd_check_status_mode` (first, so 0). -/
def ESD_MODE_REG_READ : Nat := 0
/-- Enumerator `ESD_MODE_SW_BTA` of `enum esd_check_status_mode`. -/
def ESD_MODE_SW_BTA : Nat := ESD_MODE_REG_READ + 1
/-- Enumerator `ESD_MODE_PANEL_TE` of `enum esd_check_status_mode`. -/
def ESD_MODE_PANEL_TE : Nat := ESD_MODE_SW_BTA + 1
/-- Enumerator `ESD_MODE_SW_SIM_SUCCESS` of `enum esd_check_status_mode`. -/
def ESD_MODE_SW_SIM_SUCCESS : Nat := ESD_MODE_PANEL_TE + 1
/-- Enumerator `ESD_MODE_SW_SIM_FAILURE` of `enum esd_check_status_mode`. -/
def ESD_MODE_SW_SIM_FAILURE : Nat := ESD_MODE_SW_SIM_SUCCESS + 1
/-- Enumerator `ESD_MODE_MAX` of `enum esd_check_status_mode`, the count of modes. -/
def ESD_MODE_MAX : Nat := ESD_MODE_SW_SIM_FAILURE + 1

/-- The check methods of `enum esd_check_status_mode`, in declaration order:
every enumerator before `ESD_MODE_MAX`. -/
def esd_check_status_mode : List Nat :=
  [ESD_MODE_REG_READ, ESD_MODE_SW_BTA, ESD_MODE_PANEL_TE,
   ESD_MODE_SW_SIM_SUCCESS, ESD_MODE_SW_SIM_FAILURE]

/-- Enumerator `TE2_EDGE_90HZ` of `enum dsi_panel_te2_type` (first, so 0). -/
def TE2_EDGE_90HZ : Nat := 0
/-- Enumerator `TE2_EDGE_60HZ` of `enum dsi_panel_te2_type`. -/
def TE2_EDGE_60HZ : Nat := TE2_EDGE_90HZ + 1
/-- Enumerator `TE2_EDGE_LP_HIGH` of `enum dsi_panel_te2_type`. -/
def TE2_EDGE_LP_HIGH : Nat := TE2_EDGE_60HZ + 1
/-- Enumerator `TE2_EDGE_LP_LOW` of `enum dsi_panel_te2_type`. -/
def TE2_EDGE_LP_LOW : Nat := TE2_EDGE_LP_HIGH + 1
/-- Enumerator `TE2_EDGE_MAX` of `enum dsi_panel_te2_type`, the count of edges. -/
def TE2_EDGE_MAX : Nat := TE2_EDGE_LP_LOW + 1

/-- The named edge types of `enum dsi_panel_te2_type`: every enumerator before
`TE2_EDGE_MAX`. -/
def dsi_panel_te2_type : List Nat :=
  [TE2_EDGE_90HZ, TE2_EDGE_60HZ, TE2_EDGE_LP_HIGH, TE2_EDGE_LP_LOW]

/-! ## TE2 configuration -/

/-- Header lines 294-297: `struct dsi_panel_te2_edge` (two `u16` thresholds). -/
structure dsi_panel_te2_edge where
  rising : Nat
  falling : Nat
  deriving DecidableEq, Repr, Inhabited

/-- Header lines 307-312: `struct dsi_panel_te2_config`. The table `te2_edge`
is declared `te2_edge[TE2_EDGE_MAX]`. -/
structure dsi_panel_te2_config where
  te2_edge : CArray dsi_panel_te2_edge TE2_EDGE_MAX
  current_type : Nat
  te2_ready : Bool
  lp_threshold : Nat

/-- The edge pair `te2_edge[current_type]` that `current_type` selects, read
with bounds checking. -/
def dsi_panel_te2_config.current_edge (cfg : dsi_panel_te2_config) :
    Option dsi_panel_te2_edge :=
  cfg.te2_edge.read cfg.current_type

/-! ## Backlight power state flags -/

/-- Bitwise complement `~x` of an `unsigned long`. -/
def ulong_not (x : Nat) : Nat := 2 ^ BITS_PER_LONG - 1 - x

/-- Header lines 440-443:
`return (state & BL_STATE_STANDBY) != 0;`.
`BL_STATE_STANDBY` expands to `BL_CORE_FBBLANK` of `linux/backlight.h`, which
is outside this header, so its value is the first argument. -/
def is_standby_mode (BL_STATE_STANDBY : Nat) (state : Nat) : Bool :=
  (state &&& BL_STATE_STANDBY) != 0

/-! ## Errors of the control core -/

/-- Modelled from the spec: the error taxonomy of section 7. The C functions
return `int` error codes that the `.c` files choose; the spec names the
classes. -/
inductive panel_error where
  | InvalidState
  | UnsupportedMode
  | ChannelError
  | ConfigError
  | EsdFailure
  deriving DecidableEq, Repr

/-! ## High brightness mode (HBM) data -/

/-- Modelled from the spec: `struct dsi_panel_cmd_set` is declared in
`dsi_defs.h`, outside this header. The spec treats a
command set as a value handed to the command channel; here it is identified
by a number. -/
structure dsi_panel_cmd_set where
  id : Nat
  deriving DecidableEq, Repr, Inhabited

/-- Header lines 120-138: `struct hbm_range`. Both brightness ranges are
inclusive, as the comments of the header say. -/
structure hbm_range where
  user_bri_start : Nat
  user_bri_end : Nat
  panel_bri_start : Nat
  panel_bri_end : Nat
  entry_cmd : dsi_panel_cmd_set
  dimming_stop_cmd : dsi_panel_cmd_set
  num_dimming_frames : Nat
  deriving DecidableEq, Repr, Inhabited

/-- Header lines 140-175: `struct hbm_data`. The `irc_data` buffer, the work
queue, the work item and the back pointer to the panel are left out;
`dimming_stop_cmd` is a pointer, `none` when it is `NULL`. -/
structure hbm_data where
  irc_addr : Nat
  irc_bit_offset : Nat
  irc_unlock_cmd : dsi_panel_cmd_set
  irc_lock_cmd : dsi_panel_cmd_set
  exit_cmd : dsi_panel_cmd_set
  exit_dimming_stop_cmd : dsi_panel_cmd_set
  exit_num_dimming_frames : Nat
  ranges : CArray hbm_range HBM_RANGE_MAX
  num_ranges : Nat
  cur_range : Nat
  dimming_active : Bool
  dimming_frames_total : Nat
  dimming_frames_left : Nat
  dimming_stop_cmd : Option dsi_panel_cmd_set

/-- Modelled from the spec: `dsi_backlight_hbm_dimming_start` (header line 555,
body in the `.c` files), acting on the `hbm_data` that `bl->hbm` points to.
The spec: the engine "starts a dimming session using that band's frame count and
stop-command"; a session starting while another is active replaces it
("last-writer-wins semantics, no queuing"); "a session is active if and only
if `dimming_frames_left > 0`". -/
def dsi_backlight_hbm_dimming_start (hbm : hbm_data) (num_frames : Nat)
    (stop_cmd : Option dsi_panel_cmd_set) : hbm_data :=
  { hbm with
    dimming_active := decide (0 < num_frames)
    dimming_frames_total := num_frames
    dimming_frames_left := num_frames
    dimming_stop_cmd := stop_cmd }

/-- Modelled from the spec: one per-frame tick of the dimming countdown (the
work item `dimming_work` of the header, body in the `.c` files). The spec: the
tick "decrements `dimming_frames_left`; on reaching zero, sends the stored stop
command, clears `dimming_active`". The second component lists the command sets
sent to the command channel by this tick. -/
def hbm_dimming_tick (hbm : hbm_data) : hbm_data × List dsi_panel_cmd_set :=
  if hbm.dimming_active then
    if hbm.dimming_frames_left - 1 = 0 then
      ({ hbm with dimming_frames_left := 0, dimming_active := false },
        hbm.dimming_stop_cmd.toList)
    else
      ({ hbm with dimming_frames_left := hbm.dimming_frames_left - 1 }, [])
  else
    (hbm, [])

/-- Run `n` ticks in a row, collecting the command sets sent, in order. -/
def hbm_dimming_ticks : Nat → hbm_data → hbm_data × List dsi_panel_cmd_set
  | 0, hbm => (hbm, [])
  | n + 1, hbm =>
    let first := hbm_dimming_tick hbm
    let rest := hbm_dimming_ticks n first.1
    (rest.1, first.2 ++ rest.2)

/-! ## Backlight -/

/-- Header lines 314-380: `struct dsi_panel`, the members the lifecycle and the
mode set are read from. `cur_mode` points to a `struct dsi_display_mode`
(declared outside this header) and is left out with the other
kernel objects. -/
structure dsi_panel where
  num_timing_nodes : Nat
  num_display_modes : Nat
  panel_initialized : Bool
  power_mode : Int
  hbm_mode : Nat
  deriving DecidableEq, Repr

/-- Header lines 420-423: `return panel->panel_initialized;`. -/
def dsi_panel_initialized (panel : dsi_panel) : Bool :=
  panel.panel_initialized

/-- The lifecycle operations declared at header lines 482-502. -/
inductive lifecycle_op where
  | dsi_panel_pre_prepare
  | dsi_panel_set_lp1
  | dsi_panel_set_lp2
  | dsi_panel_set_nolp
  | dsi_panel_prepare
  | dsi_panel_enable
  | dsi_panel_post_enable
  | dsi_panel_pre_disable
  | dsi_panel_disable
  | dsi_panel_unprepare
  | dsi_panel_post_unprepare
  deriving DecidableEq, Repr

/-- Modelled from the spec: what the bodies of the lifecycle operations decide
and the spec leaves open. `permitted op initialized mode` says whether `op` may
be called from the lifecycle state `(panel_initialized, power_mode)`; `target`
gives the lifecycle state a successful call leaves; `send_ok op` is the outcome
of the command channel for the command sets `op` issues. -/
structure lifecycle_rules where
  permitted : lifecycle_op → Bool → Int → Bool
  target : lifecycle_op → Bool → Int → Bool × Int
  send_ok : lifecycle_op → Bool

/-- Modelled from the spec: a call of one lifecycle operation (the eleven
functions of header lines 482-502, bodies in the `.c` files). Section 4.1: "each
validated against current state; invalid transition fails with
`InvalidState`"; section 7: violations are rejected "leaving state unchanged
(no partial mutation)", and "channel errors during a lifecycle transition leave
the lifecycle in the pre-transition state and are surfaced to the caller". -/
def lifecycle_call (rules : lifecycle_rules) (op : lifecycle_op) (panel : dsi_panel) :
    Except panel_error Unit × dsi_panel :=
  if rules.permitted op panel.panel_initialized panel.power_mode then
    if rules.send_ok op then
      let next := rules.target op panel.panel_initialized panel.power_mode
      (.ok (), { panel with panel_initialized := next.1, power_mode := next.2 })
    else
      (.error .ChannelError, panel)
  else
    (.error .InvalidState, panel)

/-- A band with the given user brightness interval, entry command and frame
count; the stop command is numbered one above the entry command. -/
def hbm_range_of (user_start user_end entry frames : Nat) : hbm_range :=
  { user_bri_start := user_start, user_bri_end := user_end,
    panel_bri_start := user_start, panel_bri_end := user_end,
    entry_cmd := ⟨entry⟩, dimming_stop_cmd := ⟨entry + 1⟩, num_dimming_frames := frames }

/-- A table with the two given bands in slots 0 and 1 and a dimming session
in flight (5 of 8 frames left, stop command 99). -/
def hbm_table_of (band0 band1 : hbm_range) : hbm_data :=
  { irc_addr := 0, irc_bit_offset := 0, irc_unlock_cmd := ⟨1⟩, irc_lock_cmd := ⟨2⟩,
    exit_cmd := ⟨3⟩, exit_dimming_stop_cmd := ⟨4⟩, exit_num_dimming_frames := 12,
    ranges := ⟨[band0, band1, default, default], rfl⟩,
    num_ranges := 2, cur_range := 0,
    dimming_active := true, dimming_frames_total := 8, dimming_frames_left := 5,
    dimming_stop_cmd := some ⟨99⟩ }

/-- The band table of the spec scenario: user levels 0-500 and 501-1023. -/
def hbm_table_adjacent : hbm_data :=
  hbm_table_of (hbm_range_of 0 500 10 30) (hbm_range_of 501 1023 20 10)

theorem and_two_pow_ne_zero_iff (x a : Nat) :
    x &&& 2 ^ a ≠ 0 ↔ x.testBit a = true := by
  constructor
  · intro h
    obtain ⟨i, hi⟩ := Nat.ne_zero_implies_bit_true h
    rw [Nat.testBit_and, Nat.testBit_two_pow] at hi
    simp only [Bool.and_eq_true, decide_eq_true_eq] at hi
    rw [hi.2]
    exact hi.1
  · intro h h0
    have hb : (x &&& 2 ^ a).testBit a = true := by
      rw [Nat.testBit_and, Nat.testBit_two_pow_self, h]
      rfl
    rw [h0, Nat.zero_testBit] at hb
    exact Bool.noConfusion hb

theorem is_standby_mode_eq_testBit (a state : Nat) :
    is_standby_mode (2 ^ a) state = state.testBit a := by
  unfold is_standby_mode
  cases hb : state.testBit a
  · have hz : state &&& 2 ^ a = 0 := by
      by_contra hne
      rw [(and_two_pow_ne_zero_iff state a).mp hne] at hb
      exact Bool.noConfusion hb
    simp [hz]
  · have hne := (and_two_pow_ne_zero_iff state a).mpr hb
    simp [hne]

theorem testBit_ulong_not_two_pow (b i : Nat) (hb : b < BITS_PER_LONG) :
    (ulong_not (2 ^ b)).testBit i = (decide (i < BITS_PER_LONG) && !decide (b = i)) := by
  unfold ulong_not
  have hlt : 2 ^ b < 2 ^ BITS_PER_LONG := Nat.pow_lt_pow_right (by decide) hb
  have h := Nat.testBit_two_pow_sub_succ hlt i
  rw [Nat.testBit_two_pow] at h
  have e : 2 ^ BITS_PER_LONG - 1 - 2 ^ b = 2 ^ BITS_PER_LONG - (2 ^ b + 1) := by omega
  rw [e, h]

/-! ## Enumerations and table sizes -/

/-- C8: the valid HBM target modes are exactly Off, On and SpecialView.
`enum hbm_mode_type` numbers `HBM_MODE_OFF = 0`, `HBM_MODE_ON = 1`,
`HBM_MODE_SV = 2`; these three are its only modes; `HBM_MODE_MAX = 3` is the
sentinel and none of the modes; and a value `m` is one of the modes if and
only if `m < HBM_MODE_MAX`. -/
theorem hbm_mode_valid_iff_lt_max :
    HBM_MODE_OFF = 0 ∧ HBM_MODE_ON = 1 ∧ HBM_MODE_SV = 2 ∧ HBM_MODE_MAX = 3 ∧
    hbm_mode_type = [HBM_MODE_OFF, HBM_MODE_ON, HBM_MODE_SV] ∧
    HBM_MODE_MAX ∉ hbm_mode_type ∧
    ∀ m : Nat, m ∈ hbm_mode_type ↔ m < HBM_MODE_MAX := by
  refine ⟨rfl, rfl, rfl, rfl, rfl, by decide, ?_⟩
  intro m
  simp only [hbm_mode_type, HBM_MODE_MAX, HBM_MODE_SV, HBM_MODE_ON, HBM_MODE_OFF,
    List.mem_cons, List.mem_singleton, List.not_mem_nil, or_false]
  omega

/-- C9: the ESD check method is exactly one of five modes. `enum
esd_check_status_mode` numbers register read, software BTA, panel TE,
simulated success and simulated failure `0` to `4` in that order; the five
values are pairwise distinct; `ESD_MODE_MAX = 5` is the sentinel and none of
the methods; and a value is a check method if and only if it is below
`ESD_MODE_MAX`. -/
theorem esd_check_status_mode_five_methods :
    esd_check_status_mode = [0, 1, 2, 3, 4] ∧
    ESD_MODE_REG_READ = 0 ∧ ESD_MODE_SW_BTA = 1 ∧ ESD_MODE_PANEL_TE = 2 ∧
    ESD_MODE_SW_SIM_SUCCESS = 3 ∧ ESD_MODE_SW_SIM_FAILURE = 4 ∧
    esd_check_status_mode.length = 5 ∧ esd_check_status_mode.Nodup ∧
    ESD_MODE_MAX = 5 ∧ ESD_MODE_MAX ∉ esd_check_status_mode ∧
    ∀ m : Nat, m ∈ esd_check_status_mode ↔ m < ESD_MODE_MAX := by
  refine ⟨rfl, rfl, rfl, rfl, rfl, rfl, rfl, by decide, rfl, by decide, ?_⟩
  intro m
  simp only [esd_check_status_mode, ESD_MODE_MAX, ESD_MODE_SW_SIM_FAILURE,
    ESD_MODE_SW_SIM_SUCCESS, ESD_MODE_PANEL_TE, ESD_MODE_SW_BTA, ESD_MODE_REG_READ,
    List.mem_cons, List.mem_singleton, List.not_mem_nil, or_false]
  omega

/-- C10: selecting the active TE2 edge pair is total. The named edge types are
exactly `TE2_EDGE_90HZ = 0`, `TE2_EDGE_60HZ = 1`, `TE2_EDGE_LP_HIGH = 2`,
`TE2_EDGE_LP_LOW = 3`; the table `te2_edge` of every configuration has exactly
`TE2_EDGE_MAX = 4` entries; and whenever `current_type` is one of the four
named edge types it is below `TE2_EDGE_MAX` and the checked read of
`te2_edge[current_type]` yields an entry. -/
theorem te2_current_edge_in_bounds :
    dsi_panel_te2_type = [0, 1, 2, 3] ∧
    TE2_EDGE_90HZ = 0 ∧ TE2_EDGE_60HZ = 1 ∧ TE2_EDGE_LP_HIGH = 2 ∧ TE2_EDGE_LP_LOW = 3 ∧
    TE2_EDGE_MAX = 4 ∧
    (∀ cfg : dsi_panel_te2_config, cfg.te2_edge.slots = 4) ∧
    ∀ cfg : dsi_panel_te2_config, cfg.current_type ∈ dsi_panel_te2_type →
      cfg.current_type < TE2_EDGE_MAX ∧
      ∃ edge, cfg.current_edge = some edge := by
  refine ⟨rfl, rfl, rfl, rfl, rfl, rfl, fun cfg => cfg.te2_edge.property, ?_⟩
  intro cfg hmem
  have hlt : cfg.current_type < TE2_EDGE_MAX := by
    simp only [dsi_panel_te2_type, TE2_EDGE_LP_LOW, TE2_EDGE_LP_HIGH, TE2_EDGE_60HZ,
      TE2_EDGE_90HZ, List.mem_cons, List.mem_singleton, List.not_mem_nil, or_false] at hmem
    simp only [TE2_EDGE_MAX, TE2_EDGE_LP_LOW, TE2_EDGE_LP_HIGH, TE2_EDGE_60HZ, TE2_EDGE_90HZ]
    omega
  refine ⟨hlt, ?_⟩
  have hlen : cfg.current_type < cfg.te2_edge.val.length := by
    rw [cfg.te2_edge.property]
    exact hlt
  exact ⟨cfg.te2_edge.val[cfg.current_type], by
    simp [dsi_panel_te2_config.current_edge, CArray.read, List.getElem?_eq_getElem hlen]⟩

/-- Witness for C10: a configuration whose `current_type` is
`TE2_EDGE_LP_HIGH` selects an entry of its table. -/
theorem te2_current_edge_in_bounds_witness :
    ∃ edge, (dsi_panel_te2_config.mk
      ⟨[⟨10, 20⟩, ⟨30, 40⟩, ⟨50, 60⟩, ⟨70, 80⟩], rfl⟩ TE2_EDGE_LP_HIGH true 0).current_edge
        = some edge :=
  (te2_current_edge_in_bounds.2.2.2.2.2.2.2 _ (by decide)).2

/-! ## Backlight power state flags -/

/-- C5: backlight power state is a bitmask of independent flags. With
`BL_STATE_STANDBY`, `BL_STATE_LP` and `BL_STATE_LP2` single bits of an
`unsigned long`, standby distinct from both low-power bits:
`is_standby_mode(state)` is true exactly when `state & BL_STATE_STANDBY` is
non-zero; setting or clearing the `BL_STATE_LP` or the `BL_STATE_LP2` bit of
`state` never changes `is_standby_mode`; and standby holds together with
either low-power flag. -/
theorem is_standby_mode_independent_of_lp (standby lp lp2 : Nat)
    (hs : standby < BITS_PER_LONG) (hl : lp < BITS_PER_LONG) (hl2 : lp2 < BITS_PER_LONG)
    (hsl : standby ≠ lp) (hsl2 : standby ≠ lp2) (state : Nat) :
    (is_standby_mode (2 ^ standby) state = true ↔ state &&& 2 ^ standby ≠ 0) ∧
    is_standby_mode (2 ^ standby) (state ||| 2 ^ lp) = is_standby_mode (2 ^ standby) state ∧
    is_standby_mode (2 ^ standby) (state &&& ulong_not (2 ^ lp))
      = is_standby_mode (2 ^ standby) state ∧
    is_standby_mode (2 ^ standby) (state ||| 2 ^ lp2) = is_standby_mode (2 ^ standby) state ∧
    is_standby_mode (2 ^ standby) (state &&& ulong_not (2 ^ lp2))
      = is_standby_mode (2 ^ standby) state ∧
    is_standby_mode (2 ^ standby) (2 ^ standby ||| 2 ^ lp) = true ∧
    is_standby_mode (2 ^ standby) (2 ^ standby ||| 2 ^ lp2) = true := by
  have hset : ∀ b : Nat, standby ≠ b →
      is_standby_mode (2 ^ standby) (state ||| 2 ^ b) = is_standby_mode (2 ^ standby) state := by
    intro b hne
    rw [is_standby_mode_eq_testBit, is_standby_mode_eq_testBit, Nat.testBit_or,
      Nat.testBit_two_pow_of_ne (Ne.symm hne), Bool.or_false]
  have hclr : ∀ b : Nat, b < BITS_PER_LONG → standby ≠ b →
      is_standby_mode (2 ^ standby) (state &&& ulong_not (2 ^ b))
        = is_standby_mode (2 ^ standby) state := by
    intro b hb hne
    rw [is_standby_mode_eq_testBit, is_standby_mode_eq_testBit, Nat.testBit_and,
      testBit_ulong_not_two_pow b standby hb]
    simp [hs, Ne.symm hne]
  have hboth : ∀ b : Nat, is_standby_mode (2 ^ standby) (2 ^ standby ||| 2 ^ b) = true := by
    intro b
    rw [is_standby_mode_eq_testBit, Nat.testBit_or, Nat.testBit_two_pow_self, Bool.true_or]
  refine ⟨?_, hset lp hsl, hclr lp hl hsl, hset lp2 hsl2, hclr lp2 hl2 hsl2, hboth lp, hboth lp2⟩
  rw [is_standby_mode_eq_testBit]
  exact (and_two_pow_ne_zero_iff state standby).symm

/-- Witness for C5: standby bit 1, low-power bits 2 and 3, state word `0b1010`. -/
theorem is_standby_mode_independent_of_lp_witness :
    is_standby_mode (2 ^ 1) (10 ||| 2 ^ 2) = is_standby_mode (2 ^ 1) 10 ∧
    is_standby_mode (2 ^ 1) (10 &&& ulong_not (2 ^ 3)) = is_standby_mode (2 ^ 1) 10 :=
  have h := is_standby_mode_independent_of_lp 1 2 3 (by decide) (by decide) (by decide)
    (by decide) (by decide) 10
  ⟨h.2.1, h.2.2.2.2.1⟩

/-! ## Panel lifecycle -/

/-- C1: for every panel, every lifecycle operation and every table of
permitted source states, a call of the operation from a lifecycle state
`(panel_initialized, power_mode)` that is not a permitted source state for it
returns the `InvalidState` error and leaves the panel, its `panel_initialized`
and `power_mode` included, exactly as it was before the call. -/
theorem lifecycle_call_invalid_state (rules : lifecycle_rules) (op : lifecycle_op)
    (panel : dsi_panel)
    (h : rules.permitted op panel.panel_initialized panel.power_mode = false) :
    lifecycle_call rules op panel = (.error .InvalidState, panel) ∧
    (lifecycle_call rules op panel).2.panel_initialized = panel.panel_initialized ∧
    (lifecycle_call rules op panel).2.power_mode = panel.power_mode := by
  have hcall : lifecycle_call rules op panel = (.error .InvalidState, panel) := by
    simp [lifecycle_call, h]
  rw [hcall]
  exact ⟨rfl, rfl, rfl⟩

/-- Witness for C1: with rules that permit `dsi_panel_set_lp1` only on an
initialized panel, the call on an uninitialized panel is rejected. -/
theorem lifecycle_call_invalid_state_witness :
    lifecycle_call ⟨fun _ initialized _ => initialized, fun _ _ _ => (true, 1), fun _ => true⟩
        .dsi_panel_set_lp1 ⟨1, 2, false, 5, 0⟩
      = (.error .InvalidState, ⟨1, 2, false, 5, 0⟩) :=
  (lifecycle_call_invalid_state
    ⟨fun _ initialized _ => initialized, fun _ _ _ => (true, 1), fun _ => true⟩
    .dsi_panel_set_lp1 ⟨1, 2, false, 5, 0⟩ rfl).1

/-! ## HBM dimming sessions -/

theorem hbm_dimming_ticks_running (k : Nat) :
    ∀ hbm : hbm_data, hbm.dimming_active = true → k < hbm.dimming_frames_left →
      (hbm_dimming_ticks k hbm).2 = [] ∧
      (hbm_dimming_ticks k hbm).1.dimming_active = true ∧
      (hbm_dimming_ticks k hbm).1.dimming_frames_left = hbm.dimming_frames_left - k ∧
      (hbm_dimming_ticks k hbm).1.dimming_stop_cmd = hbm.dimming_stop_cmd := by
  induction k with
  | zero =>
    intro hbm ha _
    exact ⟨rfl, ha, rfl, rfl⟩
  | succ k ih =>
    intro hbm ha hk
    have hne : ¬ (hbm.dimming_frames_left - 1 = 0) := by omega
    have htick : hbm_dimming_tick hbm
        = ({ hbm with dimming_frames_left := hbm.dimming_frames_left - 1 }, []) := by
      simp [hbm_dimming_tick, ha, hne]
    have hrec := ih { hbm with dimming_frames_left := hbm.dimming_frames_left - 1 } ha
      (by show k < hbm.dimming_frames_left - 1; omega)
    simp only [hbm_dimming_ticks, htick, List.nil_append]
    refine ⟨hrec.1, hrec.2.1, ?_, hrec.2.2.2⟩
    rw [hrec.2.2.1]
    show hbm.dimming_frames_left - 1 - k = hbm.dimming_frames_left - (k + 1)
    omega

theorem hbm_dimming_ticks_complete (n : Nat) :
    ∀ hbm : hbm_data, hbm.dimming_active = true → hbm.dimming_frames_left = n + 1 →
      (hbm_dimming_ticks (n + 1) hbm).2 = hbm.dimming_stop_cmd.toList ∧
      (hbm_dimming_ticks (n + 1) hbm).1.dimming_active = false ∧
      (hbm_dimming_ticks (n + 1) hbm).1.dimming_frames_left = 0 := by
  induction n with
  | zero =>
    intro hbm ha hl
    have htick : hbm_dimming_tick hbm
        = ({ hbm with dimming_frames_left := 0, dimming_active := false },
            hbm.dimming_stop_cmd.toList) := by
      simp [hbm_dimming_tick, ha, hl]
    simp [hbm_dimming_ticks, htick]
  | succ n ih =>
    intro hbm ha hl
    have hne : ¬ (hbm.dimming_frames_left - 1 = 0) := by omega
    have htick : hbm_dimming_tick hbm
        = ({ hbm with dimming_frames_left := hbm.dimming_frames_left - 1 }, []) := by
      simp [hbm_dimming_tick, ha, hne]
    have hrec := ih { hbm with dimming_frames_left := hbm.dimming_frames_left - 1 } ha
      (by show hbm.dimming_frames_left - 1 = n + 1; omega)
    rw [hbm_dimming_ticks]
    simp only [htick, List.nil_append]
    exact hrec

/-- C4: for every `hbm_data` state, one with a dimming session already active
included, every `num_frames > 0` and every stop command `c`: after
`dsi_backlight_hbm_dimming_start(bl, num_frames, c)` the session fields are
`dimming_active = true`, `dimming_frames_total = num_frames`,
`dimming_frames_left = num_frames` and `dimming_stop_cmd = c`. The countdown
so starts at the new total: the first `num_frames - 1` ticks send nothing and
keep the session active, and tick number `num_frames` sends `c`, and nothing
else, and ends the session; the stop command of the session that was
replaced is not sent. -/
theorem dimming_start_replaces_session (hbm : hbm_data) (num_frames : Nat)
    (c : Option dsi_panel_cmd_set) (h : 0 < num_frames) :
    (dsi_backlight_hbm_dimming_start hbm num_frames c).dimming_active = true ∧
    (dsi_backlight_hbm_dimming_start hbm num_frames c).dimming_frames_total = num_frames ∧
    (dsi_backlight_hbm_dimming_start hbm num_frames c).dimming_frames_left = num_frames ∧
    (dsi_backlight_hbm_dimming_start hbm num_frames c).dimming_stop_cmd = c ∧
    (∀ k : Nat, k < num_frames →
      (hbm_dimming_ticks k (dsi_backlight_hbm_dimming_start hbm num_frames c)).2 = [] ∧
      (hbm_dimming_ticks k (dsi_backlight_hbm_dimming_start hbm num_frames c)).1.dimming_active
        = true ∧
      (hbm_dimming_ticks k
        (dsi_backlight_hbm_dimming_start hbm num_frames c)).1.dimming_frames_left
        = num_frames - k) ∧
    (hbm_dimming_ticks num_frames (dsi_backlight_hbm_dimming_start hbm num_frames c)).2
      = c.toList ∧
    (hbm_dimming_ticks num_frames
      (dsi_backlight_hbm_dimming_start hbm num_frames c)).1.dimming_active = false := by
  have hact : (dsi_backlight_hbm_dimming_start hbm num_frames c).dimming_active = true := by
    simp [dsi_backlight_hbm_dimming_start, h]
  have hleft : (dsi_backlight_hbm_dimming_start hbm num_frames c).dimming_frames_left
      = num_frames := rfl
  refine ⟨hact, rfl, rfl, rfl, ?_, ?_, ?_⟩
  · intro k hk
    have hrun := hbm_dimming_ticks_running k _ hact (by rw [hleft]; exact hk)
    exact ⟨hrun.1, hrun.2.1, hrun.2.2.1⟩
  · obtain ⟨n, rfl⟩ : ∃ n, num_frames = n + 1 := ⟨num_frames - 1, by omega⟩
    exact (hbm_dimming_ticks_complete n _ hact hleft).1
  · obtain ⟨n, rfl⟩ : ∃ n, num_frames = n + 1 := ⟨num_frames - 1, by omega⟩
    exact (hbm_dimming_ticks_complete n _ hact hleft).2.1

/-- Witness for C4: on a table with a session in flight (5 frames left, stop
command 99), a new session of 3 frames with stop command 7 sends exactly
command 7 after 3 ticks. -/
theorem dimming_start_replaces_session_witness :
    (hbm_dimming_ticks 3
      (dsi_backlight_hbm_dimming_start hbm_table_adjacent 3 (some ⟨7⟩))).2 = [⟨7⟩] :=
  (dimming_start_replaces_session hbm_table_adjacent 3 (some ⟨7⟩) (by decide)).2.2.2.2.2.1


/-! ## Bounds on the configured tables -/

end DsiPanel
